import Mathlib

/-!
Verification development for the `fckprint` package (SRSWTI/fckprint).

The repository's visible sources are `fckprint/__init__.py` (the package
namespace: imports, version computation, `__all__`, cleanup deletions) and
`tests/show_demo.py` (a demo driver for the ad-hoc announce interface).
We shallowly embed the module body of `__init__.py` as a sequence of
namespace-mutating statements executed over an association list, and embed
the engine components that are referenced but not shipped under `src/`
(tracer, formatter/sink, announce call) from the specification, each such
definition marked `Modelled from the spec:` in its doc comment.
-/

set_option autoImplicit false

namespace Fckprint

/-- A value bound in the module namespace of `fckprint/__init__.py`.
`func mod name` stands for an object imported from module `mod` under its
original name `name` (classes and decorator functions alike); `pyMod` is
an imported module object; `str` a string constant; `versionInfo` the namedtuple
instance built at `__init__.py` line 75; `strList` a list of strings;
`invalid` marks a computation the interpreter would fail on. -/
inductive ModuleValue where
  | func (originModule : String) (originName : String)
  | pyMod (name : String)
  | str (s : String)
  | versionInfo (major minor micro : Nat)
  | strList (l : List String)
  | invalid
deriving DecidableEq, Repr

/-- One module-level statement of `__init__.py`, restricted to the statement
forms that file actually contains. -/
inductive Stmt where
  | importFrom (mod : String) (origName : String) (asName : String)
  | importModule (mod : String)
  | assign (name : String) (v : ModuleValue)
  | delete (name : String)
deriving DecidableEq, Repr

/-- The module namespace: an insertion-ordered association list, mirroring a
Python module `__dict__`. -/
abbrev NS := List (String × ModuleValue)

/-- Bind a name: rebinding keeps the original insertion position, a fresh
name is appended, as in a Python dict. -/
def bindName : NS → String → ModuleValue → NS
  | [], n, v => [(n, v)]
  | (k, w) :: rest, n, v =>
      if k = n then (k, v) :: rest else (k, w) :: bindName rest n v

/-- Remove a name from the namespace (the `del` statement). -/
def delName (ns : NS) (n : String) : NS :=
  ns.filter (fun p => p.1 ≠ n)

/-- Look a name up in the namespace. -/
def lookupNS (ns : NS) (n : String) : Option ModuleValue :=
  (ns.find? (fun p => p.1 == n)).map Prod.snd

/-- Python `str.split` with a single-character separator, on the character
list of the string (embedding of `'1.1.0'.split('.')` at `__init__.py`
line 75, also used to read the submodule component of a dotted module
name). -/
def pySplitAux (sep : Char) : List Char → List Char → List (List Char)
  | [], acc => [acc.reverse]
  | c :: rest, acc =>
      if c = sep then acc.reverse :: pySplitAux sep rest []
      else pySplitAux sep rest (c :: acc)

/-- Python `str.split(sep)` for a one-character separator. -/
def pySplit (s : String) (sep : Char) : List String :=
  (pySplitAux sep s.data []).map (fun cs => String.mk cs)

/-- For a module name of the form `fckprint.<sub>`, the submodule component
`<sub>`; `none` for any other module name. When CPython executes
`from .<sub> import ...` inside a package `__init__`, importing the
submodule also binds `<sub>` in the parent package's own namespace. -/
def relSubmodule (mod : String) : Option String :=
  match pySplit mod '.' with
  | ["fckprint", sub] => some sub
  | _ => none

/-- Execute one statement against the namespace. A `from .<sub> import X
as Y` statement first leaves the import system's side-effect binding of the
submodule `<sub>` on the package, then binds the as-name `Y`. -/
def execStmt (ns : NS) : Stmt → NS
  | .importFrom mod orig asN =>
      let ns1 :=
        match relSubmodule mod with
        | some sub => bindName ns sub (.pyMod mod)
        | none => ns
      bindName ns1 asN (.func mod orig)
  | .importModule mod => bindName ns mod (.pyMod mod)
  | .assign n v => bindName ns n v
  | .delete n => delName ns n

/-- Execute a module body front to back. -/
def execBody (stmts : List Stmt) : NS :=
  stmts.foldl execStmt []

/-- Numeric value of a decimal digit character, `none` on a non-digit. -/
def digitVal (c : Char) : Option Nat :=
  if c.isDigit then some (c.toNat - 48) else none

/-- Helper for `pyInt`: fold decimal digits left to right. -/
def pyIntAux : List Char → Nat → Option Nat
  | [], acc => some acc
  | c :: cs, acc =>
      match digitVal c with
      | some d => pyIntAux cs (acc * 10 + d)
      | none => none

/-- Python `int(s)` on a plain non-negative decimal literal; `none` stands
for the `ValueError` the interpreter raises otherwise. -/
def pyInt (s : String) : Option Nat :=
  match s.data with
  | [] => none
  | cs => pyIntAux cs 0

/-- The version string assigned at `__init__.py` line 74. -/
def versionString : String := "1.1.0"

/-- The value `__VersionInfo(*(map(int, __version__.split('.'))))` computed
at `__init__.py` line 75: split the version string on `'.'`, parse each
component with `int`, and apply the 3-field namedtuple constructor. Any
parse failure or arity mismatch is the interpreter failing, i.e.
`ModuleValue.invalid`. -/
def versionInfoValue (v : String) : ModuleValue :=
  match (pySplit v '.').mapM pyInt with
  | some [a, b, c] => .versionInfo a b c
  | _ => .invalid

/-- The `__all__` list of `__init__.py` lines 78–117, in source order. -/
def allExports : List String :=
  [ "snoop", "Attrs", "Exploding", "Indices", "Keys",
    "performance_monitor", "resource_monitor",
    "error_tracker", "circuit_breaker",
    "cache_monitor",
    "thread_monitor",
    "validate_data", "security_monitor",
    "call_flow_tracer",
    "db_monitor", "rate_limiter",
    "feature_flag", "audit_trail",
    "production_monitor" ]

/-- The module body of `fckprint/__init__.py`, statement by statement:
the `tracer`/`variables`/`decorators` imports (lines 31–67), the
`collections` import and version computation (lines 69–75), the `__all__`
assignment (lines 78–117) and the final cleanup deletions (line 119). -/
def moduleBody : List Stmt :=
  [ .importFrom "fckprint.tracer" "Tracer" "snoop",
    .importFrom "fckprint.variables" "Attrs" "Attrs",
    .importFrom "fckprint.variables" "Exploding" "Exploding",
    .importFrom "fckprint.variables" "Indices" "Indices",
    .importFrom "fckprint.variables" "Keys" "Keys",
    .importFrom "fckprint.decorators" "performance_monitor" "performance_monitor",
    .importFrom "fckprint.decorators" "resource_monitor" "resource_monitor",
    .importFrom "fckprint.decorators" "error_tracker" "error_tracker",
    .importFrom "fckprint.decorators" "circuit_breaker" "circuit_breaker",
    .importFrom "fckprint.decorators" "cache_monitor" "cache_monitor",
    .importFrom "fckprint.decorators" "thread_monitor" "thread_monitor",
    .importFrom "fckprint.decorators" "validate_data" "validate_data",
    .importFrom "fckprint.decorators" "security_monitor" "security_monitor",
    .importFrom "fckprint.decorators" "call_flow_tracer" "call_flow_tracer",
    .importFrom "fckprint.decorators" "db_monitor" "db_monitor",
    .importFrom "fckprint.decorators" "rate_limiter" "rate_limiter",
    .importFrom "fckprint.decorators" "feature_flag" "feature_flag",
    .importFrom "fckprint.decorators" "audit_trail" "audit_trail",
    .importFrom "fckprint.decorators" "production_monitor" "production_monitor",
    .importModule "collections",
    .assign "__VersionInfo" (.func "collections" "namedtuple.VersionInfo"),
    .assign "__version__" (.str versionString),
    .assign "__version_info__" (versionInfoValue versionString),
    .assign "__all__" (.strList allExports),
    .delete "collections",
    .delete "__VersionInfo" ]

/-- The namespace of `fckprint` after its module body has run. -/
def finalNamespace : NS := execBody moduleBody

/-- Is this binding an object imported from the `variables` module (a
watch-expression request kind)? -/
def isVariablesBinding : ModuleValue → Bool
  | .func "fckprint.variables" _ => true
  | _ => false

/-- The names in the final namespace whose bindings came from the
`variables` module, i.e. the exported watch-request kinds. -/
def watchRequestExports : List String :=
  (finalNamespace.filter (fun p => isVariablesBinding p.2)).map Prod.fst

/-- Modelled from the spec: the decorators module is not under `src/`; only
its import list (`__init__.py` lines 35–67) and the usage examples in the
package docstring (lines 16–23) are visible. Per the docstring, the
threshold-based slow-call alarm takes a `threshold` option, the retry
decorator a `max_retries` option and the cache decorator a `ttl` option. -/
def decoratorOptions : String → List String
  | "performance_monitor" => ["threshold"]
  | "error_tracker" => ["max_retries"]
  | "cache_monitor" => ["ttl"]
  | _ => []

/-- The five announce levels of spec §4.5/§6 (info/debug/warning/error/
success). -/
def validLevels : List String := ["debug", "info", "warning", "error", "success"]

/-- Error raised by the announce interface on a bad invocation. -/
inductive ShowError where
  | invalidLevel (lvl : String)
  | noValues
deriving DecidableEq, Repr

/-- Modelled from the spec: the ad-hoc announce interface `show` is called
by `tests/show_demo.py` but its definition is not under `src/`. Per spec §6
it accepts one or more positional values plus `level`/`prefix` keyword
options (`level` one of the five `validLevels`, the label optional) and
renders a single leveled/prefixed short-form line through the
Formatter/Sink, bypassing the Event Emitter. -/
def showCall (values : List String) (level : String) (tag : Option String) :
    Except ShowError String :=
  if values = [] then .error .noValues
  else if level ∈ validLevels then
    let body := String.intercalate " " values
    match tag with
    | some t => .ok ("[" ++ level ++ "] " ++ t ++ ": " ++ body)
    | none => .ok ("[" ++ level ++ "] " ++ body)
  else .error (.invalidLevel level)

/-- One variable-binding snapshot entry rendered for output. -/
abbrev Snapshot := List (String × String)

/-- The four trace-event kinds of the spec data model (§3 TraceEvent). -/
inductive EventKind where
  | callEv
  | lineEv
  | returnEv
  | exceptionEv
deriving DecidableEq, Repr

/-- One reportable occurrence handed to the Formatter/Sink (spec §3
TraceEvent): kind, depth marker, and rendered (name, value) pairs. -/
structure TraceEvent where
  kind : EventKind
  depth : Nat
  payload : Snapshot
deriving DecidableEq, Repr

/-- A failure inside the Formatter/Sink: rendering failed or the output
destination rejected the write (spec §7 taxonomy items b and c). -/
inductive EmitError where
  | renderFailure (msg : String)
  | sinkFailure (msg : String)
deriving DecidableEq, Repr

/-- Render an `EmitError` for the fallback channel. -/
def describeEmitError : EmitError → String
  | .renderFailure m => "render failure: " ++ m
  | .sinkFailure m => "sink failure: " ++ m

/-- Modelled from the spec: the Formatter/Sink module is not under `src/`.
Per spec §4.5 the formatter renders an event to a line (rendering may fail
on a non-renderable value) and writes it through a pluggable append-only
sink (the write may fail). Both fallible operations are fields so that a
concrete formatter can exhibit either failure. -/
structure Formatter where
  render : TraceEvent → Except String String
  write : String → Except String Unit

/-- The Formatter/Sink's mutable state: lines accepted by the sink, the
fallback channel's log, and whether a failure has already been reported
through the fallback channel. -/
structure SinkState where
  lines : List String
  fallbackLog : List String
  fallbackReported : Bool
deriving DecidableEq, Repr

/-- Format the event and push it to the sink; surfaces the first failure.
This is the fallible inner step that `emit` must contain. -/
def tryEmit (f : Formatter) (ev : TraceEvent) : Except EmitError String :=
  match f.render ev with
  | .error m => .error (.renderFailure m)
  | .ok line =>
      match f.write line with
      | .error m => .error (.sinkFailure m)
      | .ok _ => .ok line

/-- Modelled from the spec: `emit(event) -> void`, never raises (spec §4.5).
A formatting or write failure is caught; it is reported once through the
fallback channel (only if no earlier failure was reported) and otherwise
silently dropped. In the embedding, totality of this function is the
"never raises" contract: every event, failing or not, yields a normal
successor state. -/
def emit (f : Formatter) (st : SinkState) (ev : TraceEvent) : SinkState :=
  match tryEmit f ev with
  | .ok line => { st with lines := st.lines ++ [line] }
  | .error e =>
      if st.fallbackReported then st
      else { st with fallbackReported := true,
                     fallbackLog := st.fallbackLog ++ [describeEmitError e] }

/-- A rendered Python exception: type name and message (spec §4.4 RAISING:
the exception's type/message are rendered, never the live object). -/
structure PyException where
  ty : String
  msg : String
deriving DecidableEq, Repr

/-- Render an exception for an EXCEPTION event payload. -/
def renderExc (e : PyException) : String := e.ty ++ ": " ++ e.msg

/-- Modelled from the spec: a traced callable as the Event Emitter sees it
(the tracer module is not under `src/`). Spec §9 directs the port to model
interception as "a totally ordered sequence of (location, scope-snapshot)
pairs for a bounded computation": `steps` gives, per argument, the executed
line steps with their rendered snapshots, and `run` the final outcome —
a return value or a raised exception. -/
structure Callable where
  name : String
  param : String
  steps : Int → List (Nat × Snapshot)
  run : Int → Except PyException Int

/-- The Call-Stack Tracker's state for one execution context (spec §4.3):
the stack of active call entries plus push/pop counters used to state the
parity invariant of spec §8. -/
structure TrackerState where
  stack : List String
  pushes : Nat
  pops : Nat
deriving DecidableEq, Repr

/-- Push a CallStackEntry (spec §4.4 ENTERED). -/
def pushEntry (st : TrackerState) (c : String) : TrackerState :=
  ⟨c :: st.stack, st.pushes + 1, st.pops⟩

/-- Pop the top CallStackEntry (spec §4.4 EXITED, unconditional). -/
def popEntry (st : TrackerState) : TrackerState :=
  ⟨st.stack.tail, st.pushes, st.pops + 1⟩

/-- Modelled from the spec: one traced invocation through the Event
Emitter state machine (spec §4.4, the tracer module is not under `src/`):
push a CallStackEntry and emit CALL with the bound parameter; emit a LINE
event per executed step; on a normal result emit RETURN with the return
value as a pseudo-variable; on an exception emit EXCEPTION rendering its
type/message and then RETURN with the exception pseudo-variable; pop the
entry unconditionally on both paths; hand back the callable's outcome
unchanged. Returns (emitted events, tracker state after, outcome). -/
def tracedRun (st : TrackerState) (c : Callable) (arg : Int) :
    List TraceEvent × TrackerState × Except PyException Int :=
  let depth := st.stack.length
  let entered := pushEntry st c.name
  let callEv : TraceEvent := ⟨.callEv, depth, [(c.param, toString arg)]⟩
  let lineEvs := (c.steps arg).map (fun s => (⟨.lineEv, depth, s.2⟩ : TraceEvent))
  match c.run arg with
  | .ok v =>
      let retEv : TraceEvent := ⟨.returnEv, depth, [("returnValue", toString v)]⟩
      (callEv :: lineEvs ++ [retEv], popEntry entered, .ok v)
  | .error e =>
      let excEv : TraceEvent := ⟨.exceptionEv, depth, [("exception", renderExc e)]⟩
      let retEv : TraceEvent := ⟨.returnEv, depth, [("exception", renderExc e)]⟩
      (callEv :: lineEvs ++ [excEv, retEv], popEntry entered, .error e)

/-- The spec §8 scenario callable `g(x) { return 10 / x }`: integer
division, raising ZeroDivisionError at zero as the Python `/` would. -/
def gCallable : Callable where
  name := "g"
  param := "x"
  steps := fun _ => []
  run := fun x =>
    if x = 0 then .error ⟨"ZeroDivisionError", "division by zero"⟩
    else .ok (10 / x)

/-- Does the announce interface accept this invocation (return a rendered
line rather than an error)? -/
def acceptsShow (values : List String) (level : String) (tag : Option String) : Bool :=
  match showCall values level tag with
  | .ok _ => true
  | .error _ => false

/-- C1: the claim states that every import of the package makes a direct
call `show` available from the top-level `fckprint` namespace. Evaluating
the module body of `__init__.py` refutes the binding: `show` is neither
bound in the final module namespace nor listed in `__all__`, even though
the repository's own test `tests/show_demo.py` line 5 does
`from fckprint import show`. -/
theorem show_binding_missing :
    lookupNS finalNamespace "show" = none ∧ "show" ∉ allExports := by decide

/-- C2: the watch-request kinds exported at package top level are exactly
the closed four-variant set Attrs, Exploding, Indices, Keys: the names
bound from the variables module are exactly these four, each of the four is
bound and listed in `__all__`, and no other watch-request kind is
exported. -/
theorem watch_kinds_closed :
    watchRequestExports = ["Attrs", "Exploding", "Indices", "Keys"] ∧
    (∀ n ∈ watchRequestExports, n ∈ allExports) ∧
    (∀ n ∈ ["Attrs", "Exploding", "Indices", "Keys"],
      (lookupNS finalNamespace n).isSome = true) := by decide

/-- C3: the package exports the name `snoop`, bound to the `Tracer` class
of the tracer module (`__init__.py` line 31), and `snoop` is listed in
`__all__`; decorating with it therefore attaches the Tracer engine. -/
theorem snoop_bound_to_tracer :
    lookupNS finalNamespace "snoop" = some (.func "fckprint.tracer" "Tracer") ∧
    "snoop" ∈ allExports := by decide

/-- C4: the secondary policy decorators — the slow-call alarm
`performance_monitor` (with a `threshold` option), the retry bookkeeping
`error_tracker` (with a `max_retries` option) and the cache accounting
`cache_monitor` (with a `ttl` option) — are each bound from the decorators
module at package top level and listed in `__all__`. -/
theorem policy_decorators_exported :
    (lookupNS finalNamespace "performance_monitor" =
        some (.func "fckprint.decorators" "performance_monitor") ∧
      "performance_monitor" ∈ allExports ∧
      decoratorOptions "performance_monitor" = ["threshold"]) ∧
    (lookupNS finalNamespace "error_tracker" =
        some (.func "fckprint.decorators" "error_tracker") ∧
      "error_tracker" ∈ allExports ∧
      decoratorOptions "error_tracker" = ["max_retries"]) ∧
    (lookupNS finalNamespace "cache_monitor" =
        some (.func "fckprint.decorators" "cache_monitor") ∧
      "cache_monitor" ∈ allExports ∧
      decoratorOptions "cache_monitor" = ["ttl"]) := by decide

/-- C5: for every announce call with at least one value and any optional
label, the accepted values of the `level` option are exactly the five
levels debug, info, warning, error and success. -/
theorem show_levels_exact (values : List String) (lvl : String)
    (tag : Option String) (h : values ≠ []) :
    acceptsShow values lvl tag = true ↔
      lvl ∈ ["debug", "info", "warning", "error", "success"] := by
  unfold acceptsShow showCall
  rw [if_neg h]
  by_cases hm : lvl ∈ validLevels
  · rw [if_pos hm]
    cases tag <;> exact iff_of_true rfl hm
  · rw [if_neg hm]
    exact iff_of_false (by simp) hm

/-- Witness for C5: a concrete announce call with one value, the `success`
level and a label is accepted. -/
theorem show_levels_exact_witness :
    (["user authenticated"] : List String) ≠ [] ∧
    (acceptsShow ["user authenticated"] "success" (some "AUTH") = true ↔
      "success" ∈ ["debug", "info", "warning", "error", "success"]) :=
  ⟨by decide, show_levels_exact ["user authenticated"] "success" (some "AUTH")
    (by decide)⟩

/-- C6: the Formatter/Sink's `emit` never raises: on every event whose
formatting or write step fails, `emit` still returns a normal successor
state — the failure is reported through the fallback channel only if none
was reported before, otherwise dropped — and the failing event never
reaches the main output lines. -/
theorem emit_never_raises (f : Formatter) (st : SinkState) (ev : TraceEvent)
    (e : EmitError) (h : tryEmit f ev = .error e) :
    emit f st ev =
      (if st.fallbackReported then st
       else { st with fallbackReported := true,
                      fallbackLog := st.fallbackLog ++ [describeEmitError e] }) ∧
    (emit f st ev).lines = st.lines := by
  have he : emit f st ev =
      (if st.fallbackReported then st
       else { st with fallbackReported := true,
                      fallbackLog := st.fallbackLog ++ [describeEmitError e] }) := by
    unfold emit
    rw [h]
  refine ⟨he, ?_⟩
  rw [he]
  by_cases hr : st.fallbackReported
  · rw [if_pos hr]
  · rw [if_neg hr]

/-- A formatter whose rendering step always fails, exhibiting the §7
RenderError case. -/
def failingFormatter : Formatter where
  render := fun _ => .error "unrenderable value"
  write := fun _ => .ok ()

/-- A sample LINE event. -/
def sampleEvent : TraceEvent := ⟨.lineEv, 0, [("x", "5")]⟩

/-- A fresh sink state: no output, no fallback report yet. -/
def freshSink : SinkState := ⟨[], [], false⟩

/-- Witness for C6: with a concretely failing formatter, `emit` returns
the fallback-reporting state and writes nothing to the main output. -/
theorem emit_never_raises_witness :
    tryEmit failingFormatter sampleEvent =
      .error (.renderFailure "unrenderable value") ∧
    (emit failingFormatter freshSink sampleEvent =
      (if freshSink.fallbackReported then freshSink
       else { freshSink with
              fallbackReported := true,
              fallbackLog := freshSink.fallbackLog ++
                [describeEmitError (.renderFailure "unrenderable value")] }) ∧
     (emit failingFormatter freshSink sampleEvent).lines = freshSink.lines) :=
  ⟨rfl, emit_never_raises failingFormatter freshSink sampleEvent
    (.renderFailure "unrenderable value") rfl⟩

/-- C7: when a traced callable raises, the engine emits an EXCEPTION event
rendering the exception's type/message (after the CALL event carrying the
bound parameter) and hands the very same error back to the caller,
unchanged. -/
theorem traced_exception_transparent (st : TrackerState) (c : Callable)
    (arg : Int) (e : PyException) (h : c.run arg = .error e) :
    (tracedRun st c arg).2.2 = .error e ∧
    (⟨.exceptionEv, st.stack.length, [("exception", renderExc e)]⟩ : TraceEvent)
      ∈ (tracedRun st c arg).1 ∧
    (⟨.callEv, st.stack.length, [(c.param, toString arg)]⟩ : TraceEvent)
      ∈ (tracedRun st c arg).1 := by
  refine ⟨?_, ?_, ?_⟩ <;> simp [tracedRun, h]

/-- Witness for C7: the spec §8 scenario — `g(x) { return 10 / x }` called
at `g(0)` yields the ZeroDivisionError outcome, an EXCEPTION event
rendering it, and a CALL event with `x = 0`. -/
theorem traced_exception_transparent_witness :
    gCallable.run 0 = .error ⟨"ZeroDivisionError", "division by zero"⟩ ∧
    ((tracedRun ⟨[], 0, 0⟩ gCallable 0).2.2 =
        .error ⟨"ZeroDivisionError", "division by zero"⟩ ∧
      (⟨.exceptionEv, 0,
        [("exception", renderExc ⟨"ZeroDivisionError", "division by zero"⟩)]⟩ :
          TraceEvent) ∈ (tracedRun ⟨[], 0, 0⟩ gCallable 0).1 ∧
      (⟨.callEv, 0, [("x", toString (0 : Int))]⟩ : TraceEvent)
        ∈ (tracedRun ⟨[], 0, 0⟩ gCallable 0).1) :=
  ⟨rfl, traced_exception_transparent ⟨[], 0, 0⟩ gCallable 0
    ⟨"ZeroDivisionError", "division by zero"⟩ rfl⟩

/-- C8: every entered traced call pops its CallStackEntry exactly once, on
the normal-return path and on the exception-unwind path alike: after any
traced invocation the stack is restored, and the push and pop counters
each advanced by exactly one. -/
theorem call_stack_parity (st : TrackerState) (c : Callable) (arg : Int) :
    ((tracedRun st c arg).2.1).stack = st.stack ∧
    ((tracedRun st c arg).2.1).pushes = st.pushes + 1 ∧
    ((tracedRun st c arg).2.1).pops = st.pops + 1 := by
  rcases hr : c.run arg with v | e <;>
    simp [tracedRun, hr, pushEntry, popEntry]

/-- C9: after the module body runs, `__version__` equals the string
"1.1.0" and `__version_info__` is the (major, minor, micro) namedtuple
(1, 1, 0), whose components are exactly the integers obtained by splitting
`__version__` on '.'. -/
theorem version_info_correct :
    lookupNS finalNamespace "__version__" = some (.str "1.1.0") ∧
    lookupNS finalNamespace "__version_info__" = some (.versionInfo 1 1 0) ∧
    (pySplit "1.1.0" '.').map pyInt = [some 1, some 1, some 0] := by decide

/-- C10 counterexample: the claim that the package namespace is exactly
the declared public surface plus the version attributes is false of the
program. Executing `from .tracer import Tracer as snoop` also leaves
the import system's binding of the submodule `tracer` in the package
namespace, and `tracer` is neither one of the 19 `__all__` names nor a
version attribute (and likewise `variables` and `decorators` stay
bound). -/
theorem namespace_exact_counterexample :
    lookupNS finalNamespace "tracer" = some (.pyMod "fckprint.tracer") ∧
    "tracer" ∉ allExports ∧
    "tracer" ∉ ["__version__", "__version_info__", "__all__"] ∧
    (lookupNS finalNamespace "variables").isSome = true ∧
    (lookupNS finalNamespace "decorators").isSome = true := by decide

/-- C10 (amended): the final module namespace is exactly the 19 `__all__`
names plus the submodule bindings `tracer`, `variables` and `decorators`
left behind by the from-imports, plus `__version__`, `__version_info__`
and `__all__` itself (in binding order); each exported name is bound,
while the helper names `collections` and `__VersionInfo` are deleted and
no longer bound. -/
theorem namespace_exact_amended :
    finalNamespace.map Prod.fst =
      ["tracer", "snoop",
       "variables", "Attrs", "Exploding", "Indices", "Keys",
       "decorators",
       "performance_monitor", "resource_monitor",
       "error_tracker", "circuit_breaker",
       "cache_monitor",
       "thread_monitor",
       "validate_data", "security_monitor",
       "call_flow_tracer",
       "db_monitor", "rate_limiter",
       "feature_flag", "audit_trail",
       "production_monitor",
       "__version__", "__version_info__", "__all__"] ∧
    allExports.length = 19 ∧
    (∀ n ∈ allExports, (lookupNS finalNamespace n).isSome = true) ∧
    lookupNS finalNamespace "collections" = none ∧
    lookupNS finalNamespace "__VersionInfo" = none := by decide

end Fckprint
